import Mathlib

/-!
Shallow embedding of the ROADRUNNER UN MiniFuel analysis scripts
(`scripts/sensitivity_analysis.py`, `scripts/figure14_fgr_comparison.py`,
`scripts/figure15_swelling_ross.py`, `scripts/figure12_irradiation_conditions.py`).

Python floats are modelled as real numbers; `x ** y` on floats is modelled by
real `rpow`; `x ** 2` by natural squaring.  The per-specimen loop of
`sensitivity_analysis.py` is embedded as functions of the specimen inputs
`(T, BU, TD)`.  The hardcoded data tables are embedded as rational lists so
that facts about them are decidable, and are cast to reals where the
correlations consume them.
-/

/- ================= Correlations (code side) ================= -/

/-- `storms_fgr` from `scripts/sensitivity_analysis.py` lines 78-80
(textually identical in `scripts/figure14_fgr_comparison.py` lines 66-68):
`100.0 / (np.exp(0.0025 * (90.0 * TD**0.77 / BU**0.09 - T_K)) + 1.0)`. -/
noncomputable def storms_fgr (T_K BU TD : ℝ) : ℝ :=
  100.0 / (Real.exp (0.0025 * (90.0 * TD ^ (0.77 : ℝ) / BU ^ (0.09 : ℝ) - T_K)) + 1.0)

/-- `rogozkin_fgr` from `scripts/sensitivity_analysis.py` lines 83-86
(textually identical in `scripts/figure14_fgr_comparison.py` lines 71-74):
`T_C = T_K - 273.15; 3.05 * BU**1.92 * np.exp(-2086.0 / T_C)`. -/
noncomputable def rogozkin_fgr (T_K BU : ℝ) : ℝ :=
  let T_C := T_K - 273.15
  3.05 * BU ^ (1.92 : ℝ) * Real.exp (-2086.0 / T_C)

/-- `ross_swelling` from `scripts/figure15_swelling_ross.py` line 94:
`4.7e-11 * T_K**3.12 * BU**0.83 * TD**0.5`. -/
noncomputable def ross_swelling (T_K BU TD : ℝ) : ℝ :=
  4.7e-11 * T_K ^ (3.12 : ℝ) * BU ^ (0.83 : ℝ) * TD ^ (0.5 : ℝ)

/- ===== Uncertainty parameters, `sensitivity_analysis.py` lines 92-99 ===== -/

/-- `DELTA_T = 30.0` (K). -/
noncomputable def DELTA_T : ℝ := 30.0

/-- `DELTA_BU = 0.5` (%FIMA). -/
noncomputable def DELTA_BU : ℝ := 0.5

/-- `DELTA_TD = 2.0` (%TD). -/
noncomputable def DELTA_TD : ℝ := 2.0

/-- `H_T = 1.0` (K), central finite difference step. -/
noncomputable def H_T : ℝ := 1.0

/-- `H_BU = 0.01` (%FIMA), central finite difference step. -/
noncomputable def H_BU : ℝ := 0.01

/-- `H_TD = 0.1` (%TD), central finite difference step. -/
noncomputable def H_TD : ℝ := 0.1

/- ===== Per-specimen loop body, `sensitivity_analysis.py` lines 107-155,
   as functions of the specimen inputs (T, BU, TD) ===== -/

/-- Line 115: `dfdT_s = (storms_fgr(T + H_T, BU, TD) - storms_fgr(T - H_T, BU, TD)) / (2 * H_T)`. -/
noncomputable def dfdT_s (T BU TD : ℝ) : ℝ :=
  (storms_fgr (T + H_T) BU TD - storms_fgr (T - H_T) BU TD) / (2 * H_T)

/-- Line 116: central difference of `storms_fgr` in `BU` with step `H_BU`. -/
noncomputable def dfdBU_s (T BU TD : ℝ) : ℝ :=
  (storms_fgr T (BU + H_BU) TD - storms_fgr T (BU - H_BU) TD) / (2 * H_BU)

/-- Line 117: central difference of `storms_fgr` in `TD` with step `H_TD`. -/
noncomputable def dfdTD_s (T BU TD : ℝ) : ℝ :=
  (storms_fgr T BU (TD + H_TD) - storms_fgr T BU (TD - H_TD)) / (2 * H_TD)

/-- Line 119: `var_T_s = (dfdT_s * DELTA_T) ** 2`. -/
noncomputable def var_T_s (T BU TD : ℝ) : ℝ := (dfdT_s T BU TD * DELTA_T) ^ 2

/-- Line 120: `var_BU_s = (dfdBU_s * DELTA_BU) ** 2`. -/
noncomputable def var_BU_s (T BU TD : ℝ) : ℝ := (dfdBU_s T BU TD * DELTA_BU) ^ 2

/-- Line 121: `var_TD_s = (dfdTD_s * DELTA_TD) ** 2`. -/
noncomputable def var_TD_s (T BU TD : ℝ) : ℝ := (dfdTD_s T BU TD * DELTA_TD) ^ 2

/-- Line 122: `var_total_s = var_T_s + var_BU_s + var_TD_s`. -/
noncomputable def var_total_s (T BU TD : ℝ) : ℝ :=
  var_T_s T BU TD + var_BU_s T BU TD + var_TD_s T BU TD

/-- Line 123: `sigma_s = np.sqrt(var_total_s)`. -/
noncomputable def sigma_s (T BU TD : ℝ) : ℝ := Real.sqrt (var_total_s T BU TD)

/-- Line 128: central difference of `rogozkin_fgr` in `T` with step `H_T`. -/
noncomputable def dfdT_r (T BU : ℝ) : ℝ :=
  (rogozkin_fgr (T + H_T) BU - rogozkin_fgr (T - H_T) BU) / (2 * H_T)

/-- Line 129: central difference of `rogozkin_fgr` in `BU` with step `H_BU`. -/
noncomputable def dfdBU_r (T BU : ℝ) : ℝ :=
  (rogozkin_fgr T (BU + H_BU) - rogozkin_fgr T (BU - H_BU)) / (2 * H_BU)

/-- Line 131: `var_T_r = (dfdT_r * DELTA_T) ** 2`. -/
noncomputable def var_T_r (T BU : ℝ) : ℝ := (dfdT_r T BU * DELTA_T) ^ 2

/-- Line 132: `var_BU_r = (dfdBU_r * DELTA_BU) ** 2`. -/
noncomputable def var_BU_r (T BU : ℝ) : ℝ := (dfdBU_r T BU * DELTA_BU) ^ 2

/-- Line 133: `var_total_r = var_T_r + var_BU_r`. -/
noncomputable def var_total_r (T BU : ℝ) : ℝ := var_T_r T BU + var_BU_r T BU

/-- Line 134: `sigma_r = np.sqrt(var_total_r)`. -/
noncomputable def sigma_r (T BU : ℝ) : ℝ := Real.sqrt (var_total_r T BU)

/-- Line 145: `100 * var_T_s / var_total_s if var_total_s > 0 else 0`. -/
noncomputable def Storms_var_T_pct (T BU TD : ℝ) : ℝ :=
  if var_total_s T BU TD > 0 then 100 * var_T_s T BU TD / var_total_s T BU TD else 0

/-- Line 146: `100 * var_BU_s / var_total_s if var_total_s > 0 else 0`. -/
noncomputable def Storms_var_BU_pct (T BU TD : ℝ) : ℝ :=
  if var_total_s T BU TD > 0 then 100 * var_BU_s T BU TD / var_total_s T BU TD else 0

/-- Line 147: `100 * var_TD_s / var_total_s if var_total_s > 0 else 0`. -/
noncomputable def Storms_var_TD_pct (T BU TD : ℝ) : ℝ :=
  if var_total_s T BU TD > 0 then 100 * var_TD_s T BU TD / var_total_s T BU TD else 0

/-- Line 151: `100 * var_T_r / var_total_r if var_total_r > 0 else 0`. -/
noncomputable def Rogozkin_var_T_pct (T BU : ℝ) : ℝ :=
  if var_total_r T BU > 0 then 100 * var_T_r T BU / var_total_r T BU else 0

/-- Line 152: `100 * var_BU_r / var_total_r if var_total_r > 0 else 0`. -/
noncomputable def Rogozkin_var_BU_pct (T BU : ℝ) : ℝ :=
  if var_total_r T BU > 0 then 100 * var_BU_r T BU / var_total_r T BU else 0

/- ===== `figure14_fgr_comparison.py` lines 81-107 ===== -/

/-- `dT = 30.0` (K), figure14. -/
noncomputable def dT : ℝ := 30.0

/-- `dBU = 0.5` (%FIMA), figure14. -/
noncomputable def dBU : ℝ := 0.5

/-- `dTD = 2.0` (%TD), figure14. -/
noncomputable def dTD : ℝ := 2.0

/-- `h_T = 1.0` (K), figure14. -/
noncomputable def h_T : ℝ := 1.0

/-- `h_BU = 0.01` (%FIMA), figure14. -/
noncomputable def h_BU : ℝ := 0.01

/-- `h_TD = 0.1` (%TD), figure14. -/
noncomputable def h_TD : ℝ := 0.1

/-- `propagate_storms` from `figure14_fgr_comparison.py` lines 91-98:
returns the pair (FGR, propagated sigma). -/
noncomputable def propagate_storms (T BU TD : ℝ) : ℝ × ℝ :=
  let fgr := storms_fgr T BU TD
  let df_dT := (storms_fgr (T + h_T) BU TD - storms_fgr (T - h_T) BU TD) / (2 * h_T)
  let df_dBU := (storms_fgr T (BU + h_BU) TD - storms_fgr T (BU - h_BU) TD) / (2 * h_BU)
  let df_dTD := (storms_fgr T BU (TD + h_TD) - storms_fgr T BU (TD - h_TD)) / (2 * h_TD)
  (fgr, Real.sqrt ((df_dT * dT) ^ 2 + (df_dBU * dBU) ^ 2 + (df_dTD * dTD) ^ 2))

/-- `propagate_rogozkin` from `figure14_fgr_comparison.py` lines 101-107. -/
noncomputable def propagate_rogozkin (T BU : ℝ) : ℝ × ℝ :=
  let fgr := rogozkin_fgr T BU
  let df_dT := (rogozkin_fgr (T + h_T) BU - rogozkin_fgr (T - h_T) BU) / (2 * h_T)
  let df_dBU := (rogozkin_fgr T (BU + h_BU) - rogozkin_fgr T (BU - h_BU)) / (2 * h_BU)
  (fgr, Real.sqrt ((df_dT * dT) ^ 2 + (df_dBU * dBU) ^ 2))

/- ===== Spec-side definitions (written from the specification text,
   for the refinement claims; compared against the code-side ones) ===== -/

/-- Spec constant k of Form A (spec section 4.1). -/
noncomputable def formA_k : ℝ := 0.0025

/-- Spec constant c1 of Form A. -/
noncomputable def formA_c1 : ℝ := 90

/-- Spec constant a of Form A. -/
noncomputable def formA_a : ℝ := 0.77

/-- Spec constant b of Form A. -/
noncomputable def formA_b : ℝ := 0.09

/-- Form A as the spec states it (section 4.1):
`response = 100 / (exp(k*(c1*rho^a / BU^b - T)) + 1)`. -/
noncomputable def formA_spec (T BU rho : ℝ) : ℝ :=
  100 / (Real.exp (formA_k * (formA_c1 * rho ^ formA_a / BU ^ formA_b - T)) + 1)

/-- Spec constant c2 of Form B (spec section 4.1). -/
noncomputable def formB_c2 : ℝ := 3.05

/-- Spec constant p of Form B. -/
noncomputable def formB_p : ℝ := 1.92

/-- Spec constant E of Form B. -/
noncomputable def formB_E : ℝ := 2086

/-- Form B as the spec states it (section 4.1):
`response = c2*BU^p*exp(-E/(T - 273.15))`. -/
noncomputable def formB_spec (T BU : ℝ) : ℝ :=
  formB_c2 * BU ^ formB_p * Real.exp (-formB_E / (T - 273.15))

/-- Centered difference as the spec states it (section 4.2):
`(f(x+h) - f(x-h)) / (2h)`. -/
noncomputable def centralDiff (f : ℝ → ℝ) (x h : ℝ) : ℝ :=
  (f (x + h) - f (x - h)) / (2 * h)

/-- Per-input variance term as the spec states it (section 4.3):
`v_i = (df/dx_i * Delta_x_i)^2`. -/
noncomputable def specVarTerm (d delta : ℝ) : ℝ := (d * delta) ^ 2

/- ===== Hardcoded specimen datasets (rational embedding) ===== -/

/-- `data["Sample_ID"]` of `sensitivity_analysis.py` lines 37-44. -/
def sa_Sample_ID : List String := [
  "RRN01-6", "RRN01-5", "RRN01-4", "RRN01-3", "RRN01-2", "RRN01-1",
  "RRN02-6", "RRN02-5", "RRN02-4", "RRN02-3", "RRN02-2", "RRN02-1",
  "RRN03-6", "RRN03-5", "RRN03-4", "RRN03-3", "RRN03-2", "RRN03-1",
  "RRN04-6", "RRN04-5", "RRN04-4", "RRN04-3", "RRN04-2", "RRN04-1",
  "RRN05-6", "RRN05-5", "RRN05-4", "RRN05-3", "RRN05-2", "RRN05-1",
  "RRN06-6", "RRN06-5", "RRN06-4", "RRN06-3", "RRN06-2", "RRN06-1"]

/-- `data["Target"]` of `sensitivity_analysis.py` line 45: `[1]*6 + [2]*6 + ... + [6]*6`. -/
def sa_Target : List ℕ :=
  List.replicate 6 1 ++ List.replicate 6 2 ++ List.replicate 6 3 ++
    List.replicate 6 4 ++ List.replicate 6 5 ++ List.replicate 6 6

/-- `data["T_K"]` of `sensitivity_analysis.py` lines 46-53. -/
def sa_T_K : List ℚ := [
  1190, 1190, 1181, 1183, 1163, 1182,
  877, 881, 1183, 1479, 1487, 1181,
  1184, 1187, 1181, 1172, 1187, 1181,
  875, 881, 1172, 1483, 1490, 1175,
  1191, 1183, 1183, 1179, 1182, 1175,
  877, 881, 1183, 1479, 1487, 1181]

/-- `data["BU_FIMA"]` of `sensitivity_analysis.py` lines 54-61. -/
def sa_BU_FIMA : List ℚ := [
  7.058, 7.470, 7.657, 7.839, 7.730, 7.576,
  7.338, 7.726, 7.908, 8.081, 8.020, 7.716,
  3.498, 3.681, 3.741, 3.852, 3.842, 3.740,
  5.936, 6.229, 6.399, 6.517, 6.451, 6.237,
  5.485, 5.751, 5.985, 5.990, 5.983, 5.863,
  3.757, 4.027, 4.096, 4.217, 4.163, 3.958]

/-- `data["TD_pct"]` of `sensitivity_analysis.py` lines 62-69. -/
def sa_TD_pct : List ℚ := [
  92.89, 94.21, 93.43, 94.73, 95.21, 95.76,
  94.79, 94.36, 93.19, 92.00, 95.01, 95.49,
  89.09, 86.27, 89.02, 95.21, 95.91, 94.50,
  94.33, 95.45, 95.59, 93.48, 96.05, 95.60,
  87.30, 88.57, 88.19, 93.27, 94.07, 96.32,
  94.10, 95.43, 95.63, 95.14, 96.14, 95.01]

/-- `data["Sample_ID"]` of `figure14_fgr_comparison.py` lines 26-33. -/
def f14_Sample_ID : List String := [
  "RRN01-6", "RRN01-5", "RRN01-4", "RRN01-3", "RRN01-2", "RRN01-1",
  "RRN02-6", "RRN02-5", "RRN02-4", "RRN02-3", "RRN02-2", "RRN02-1",
  "RRN03-6", "RRN03-5", "RRN03-4", "RRN03-3", "RRN03-2", "RRN03-1",
  "RRN04-6", "RRN04-5", "RRN04-4", "RRN04-3", "RRN04-2", "RRN04-1",
  "RRN05-6", "RRN05-5", "RRN05-4", "RRN05-3", "RRN05-2", "RRN05-1",
  "RRN06-6", "RRN06-5", "RRN06-4", "RRN06-3", "RRN06-2", "RRN06-1"]

/-- `data["Target"]` of `figure14_fgr_comparison.py` line 25. -/
def f14_Target : List ℕ :=
  List.replicate 6 1 ++ List.replicate 6 2 ++ List.replicate 6 3 ++
    List.replicate 6 4 ++ List.replicate 6 5 ++ List.replicate 6 6

/-- `data["BU"]` of `figure14_fgr_comparison.py` lines 34-41. -/
def f14_BU : List ℚ := [
  7.058, 7.470, 7.657, 7.839, 7.730, 7.576,
  7.338, 7.726, 7.908, 8.081, 8.020, 7.716,
  3.498, 3.681, 3.741, 3.852, 3.842, 3.740,
  5.936, 6.229, 6.399, 6.517, 6.451, 6.237,
  5.485, 5.751, 5.985, 5.990, 5.983, 5.863,
  3.757, 4.027, 4.096, 4.217, 4.163, 3.958]

/-- `data["T"]` of `figure14_fgr_comparison.py` lines 42-49. -/
def f14_T : List ℚ := [
  1190, 1190, 1181, 1183, 1163, 1182,
  877, 881, 1183, 1479, 1487, 1181,
  1184, 1187, 1181, 1172, 1187, 1181,
  875, 881, 1172, 1483, 1490, 1175,
  1191, 1183, 1183, 1179, 1182, 1175,
  877, 881, 1183, 1479, 1487, 1181]

/-- `data["TD"]` of `figure14_fgr_comparison.py` lines 50-57. -/
def f14_TD : List ℚ := [
  92.89, 94.21, 93.43, 94.73, 95.21, 95.76,
  94.79, 94.36, 93.19, 92.00, 95.01, 95.49,
  89.09, 86.27, 89.02, 95.21, 95.91, 94.50,
  94.33, 95.45, 95.59, 93.48, 96.05, 95.60,
  87.30, 88.57, 88.19, 93.27, 94.07, 96.32,
  94.10, 95.43, 95.63, 95.14, 96.14, 95.01]

/-- `data["Sample_ID"]` of `figure15_swelling_ross.py` lines 36-43. -/
def f15_Sample_ID : List String := [
  "RRN01-6", "RRN01-5", "RRN01-4", "RRN01-3", "RRN01-2", "RRN01-1",
  "RRN02-6", "RRN02-5", "RRN02-4", "RRN02-3", "RRN02-2", "RRN02-1",
  "RRN03-6", "RRN03-5", "RRN03-4", "RRN03-3", "RRN03-2", "RRN03-1",
  "RRN04-6", "RRN04-5", "RRN04-4", "RRN04-3", "RRN04-2", "RRN04-1",
  "RRN05-6", "RRN05-5", "RRN05-4", "RRN05-3", "RRN05-2", "RRN05-1",
  "RRN06-6", "RRN06-5", "RRN06-4", "RRN06-3", "RRN06-2", "RRN06-1"]

/-- `data["Target"]` of `figure15_swelling_ross.py` line 35. -/
def f15_Target : List ℕ :=
  List.replicate 6 1 ++ List.replicate 6 2 ++ List.replicate 6 3 ++
    List.replicate 6 4 ++ List.replicate 6 5 ++ List.replicate 6 6

/-- `data["BU"]` of `figure15_swelling_ross.py` lines 44-51. -/
def f15_BU : List ℚ := [
  7.058, 7.470, 7.657, 7.839, 7.730, 7.576,
  7.338, 7.726, 7.908, 8.081, 8.020, 7.716,
  3.498, 3.681, 3.741, 3.852, 3.842, 3.740,
  5.936, 6.229, 6.399, 6.517, 6.451, 6.237,
  5.485, 5.751, 5.985, 5.990, 5.983, 5.863,
  3.757, 4.027, 4.096, 4.217, 4.163, 3.958]

/-- `data["T"]` of `figure15_swelling_ross.py` lines 52-59. -/
def f15_T : List ℚ := [
  1190, 1190, 1181, 1183, 1163, 1182,
  877, 881, 1183, 1479, 1487, 1181,
  1184, 1187, 1181, 1172, 1187, 1181,
  875, 881, 1172, 1483, 1490, 1175,
  1191, 1183, 1183, 1179, 1182, 1175,
  877, 881, 1183, 1479, 1487, 1181]

/-- `data["TD"]` of `figure15_swelling_ross.py` lines 60-67. -/
def f15_TD : List ℚ := [
  92.89, 94.21, 93.43, 94.73, 95.21, 95.76,
  94.79, 94.36, 93.19, 92.00, 95.01, 95.49,
  89.09, 86.27, 89.02, 95.21, 95.91, 94.50,
  94.33, 95.45, 95.59, 93.48, 96.05, 95.60,
  87.30, 88.57, 88.19, 93.27, 94.07, 96.32,
  94.10, 95.43, 95.63, 95.14, 96.14, 95.01]

/-- `data["Sample_ID"]` of `figure12_irradiation_conditions.py` lines 23-30. -/
def f12_Sample_ID : List String := [
  "RRN01-6", "RRN01-5", "RRN01-4", "RRN01-3", "RRN01-2", "RRN01-1",
  "RRN02-6", "RRN02-5", "RRN02-4", "RRN02-3", "RRN02-2", "RRN02-1",
  "RRN03-6", "RRN03-5", "RRN03-4", "RRN03-3", "RRN03-2", "RRN03-1",
  "RRN04-6", "RRN04-5", "RRN04-4", "RRN04-3", "RRN04-2", "RRN04-1",
  "RRN05-6", "RRN05-5", "RRN05-4", "RRN05-3", "RRN05-2", "RRN05-1",
  "RRN06-6", "RRN06-5", "RRN06-4", "RRN06-3", "RRN06-2", "RRN06-1"]

/-- `data["Target"]` of `figure12_irradiation_conditions.py` line 22. -/
def f12_Target : List ℕ :=
  List.replicate 6 1 ++ List.replicate 6 2 ++ List.replicate 6 3 ++
    List.replicate 6 4 ++ List.replicate 6 5 ++ List.replicate 6 6

/-- `data["Burnup_FIMA"]` of `figure12_irradiation_conditions.py` lines 31-38. -/
def f12_Burnup_FIMA : List ℚ := [
  7.058, 7.470, 7.657, 7.839, 7.730, 7.576,
  7.338, 7.726, 7.908, 8.081, 8.020, 7.716,
  3.498, 3.681, 3.741, 3.852, 3.842, 3.740,
  5.936, 6.229, 6.399, 6.517, 6.451, 6.237,
  5.485, 5.751, 5.985, 5.990, 5.983, 5.863,
  3.757, 4.027, 4.096, 4.217, 4.163, 3.958]

/-- `data["Temperature_K"]` of `figure12_irradiation_conditions.py` lines 39-46. -/
def f12_Temperature_K : List ℚ := [
  1190, 1190, 1181, 1183, 1163, 1182,
  877, 881, 1183, 1479, 1487, 1181,
  1184, 1187, 1181, 1172, 1187, 1181,
  875, 881, 1172, 1483, 1490, 1175,
  1191, 1183, 1183, 1179, 1182, 1175,
  877, 881, 1183, 1479, 1487, 1181]

/-- `data["Density_TD"]` of `figure12_irradiation_conditions.py` lines 47-54. -/
def f12_Density_TD : List ℚ := [
  92.89, 94.21, 93.43, 94.73, 95.21, 95.76,
  94.79, 94.36, 93.19, 92.00, 95.01, 95.49,
  89.09, 86.27, 89.02, 95.21, 95.91, 94.50,
  94.33, 95.45, 95.59, 93.48, 96.05, 95.60,
  87.30, 88.57, 88.19, 93.27, 94.07, 96.32,
  94.10, 95.43, 95.63, 95.14, 96.14, 95.01]

/-- The 36 specimen operating points (T_K, BU_FIMA, TD_pct), row-wise zip of
the data table of `sensitivity_analysis.py`. -/
def specimensQ : List (ℚ × ℚ × ℚ) := sa_T_K.zip (sa_BU_FIMA.zip sa_TD_pct)

/- ================= Helper lemmas ================= -/

/-- The Storms sigmoid is positive for all real inputs (denominator exceeds 1). -/
theorem storms_fgr_pos (T BU TD : ℝ) : 0 < storms_fgr T BU TD := by
  unfold storms_fgr
  positivity

/-- The Storms sigmoid is below 100 for all real inputs. -/
theorem storms_fgr_lt_100 (T BU TD : ℝ) : storms_fgr T BU TD < 100 := by
  unfold storms_fgr
  have he := Real.exp_pos (0.0025 * (90.0 * TD ^ (0.77 : ℝ) / BU ^ (0.09 : ℝ) - T))
  rw [div_lt_iff (by linarith)]
  linarith

/-- The Storms sigmoid is strictly increasing in temperature. -/
theorem storms_fgr_lt_T (BU TD : ℝ) {T1 T2 : ℝ} (h : T1 < T2) :
    storms_fgr T1 BU TD < storms_fgr T2 BU TD := by
  unfold storms_fgr
  have hexp : Real.exp (0.0025 * (90.0 * TD ^ (0.77 : ℝ) / BU ^ (0.09 : ℝ) - T2))
      < Real.exp (0.0025 * (90.0 * TD ^ (0.77 : ℝ) / BU ^ (0.09 : ℝ) - T1)) :=
    Real.exp_lt_exp.mpr (by nlinarith)
  have h2 : 0 < Real.exp (0.0025 * (90.0 * TD ^ (0.77 : ℝ) / BU ^ (0.09 : ℝ) - T2)) + 1.0 := by
    positivity
  exact div_lt_div_of_pos_left (by norm_num) h2 (by linarith)

/-- The Rogozkin correlation is positive for positive burnup. -/
theorem rogozkin_fgr_pos {T BU : ℝ} (hBU : 0 < BU) : 0 < rogozkin_fgr T BU := by
  simp only [rogozkin_fgr]
  exact mul_pos (mul_pos (by norm_num) (Real.rpow_pos_of_pos hBU _)) (Real.exp_pos _)

/-- The Rogozkin correlation is strictly increasing in temperature above 273.15 K
for positive burnup. -/
theorem rogozkin_fgr_lt_T {BU T1 T2 : ℝ} (hBU : 0 < BU) (h1 : 273.15 < T1) (h12 : T1 < T2) :
    rogozkin_fgr T1 BU < rogozkin_fgr T2 BU := by
  simp only [rogozkin_fgr]
  have hc1 : 0 < T1 - 273.15 := by linarith
  have hdiv : 2086.0 / (T2 - 273.15) < 2086.0 / (T1 - 273.15) :=
    div_lt_div_of_pos_left (by norm_num) hc1 (by linarith)
  have hexp : Real.exp (-2086.0 / (T1 - 273.15)) < Real.exp (-2086.0 / (T2 - 273.15)) := by
    apply Real.exp_lt_exp.mpr
    rw [neg_div, neg_div]
    linarith
  exact mul_lt_mul_of_pos_left hexp (mul_pos (by norm_num) (Real.rpow_pos_of_pos hBU _))

/-- The centered temperature difference of the Storms sigmoid is positive. -/
theorem dfdT_s_pos (T BU TD : ℝ) : 0 < dfdT_s T BU TD := by
  unfold dfdT_s
  apply div_pos
  · have := storms_fgr_lt_T BU TD (show T - H_T < T + H_T by unfold H_T; linarith)
    linarith
  · unfold H_T; norm_num

/-- The Storms total first-order variance is strictly positive at every operating
point: the temperature term alone is positive by strict monotonicity. -/
theorem var_total_s_pos (T BU TD : ℝ) : 0 < var_total_s T BU TD := by
  have h1 : 0 < var_T_s T BU TD := by
    unfold var_T_s
    exact pow_pos (mul_pos (dfdT_s_pos T BU TD) (by unfold DELTA_T; norm_num)) 2
  have h2 : 0 ≤ var_BU_s T BU TD := by unfold var_BU_s; positivity
  have h3 : 0 ≤ var_TD_s T BU TD := by unfold var_TD_s; positivity
  unfold var_total_s
  linarith

/-- The Rogozkin total first-order variance is strictly positive for positive
burnup and temperature whose 1 K-shifted values stay above 273.15 K. -/
theorem var_total_r_pos {T BU : ℝ} (hBU : 0 < BU) (hT : 274.15 < T) : 0 < var_total_r T BU := by
  have hd : 0 < dfdT_r T BU := by
    unfold dfdT_r
    apply div_pos
    · have := rogozkin_fgr_lt_T hBU (show (273.15 : ℝ) < T - H_T by unfold H_T; linarith)
        (show T - H_T < T + H_T by unfold H_T; linarith)
      linarith
    · unfold H_T; norm_num
  have h1 : 0 < var_T_r T BU := by
    unfold var_T_r
    exact pow_pos (mul_pos hd (by unfold DELTA_T; norm_num)) 2
  have h2 : 0 ≤ var_BU_r T BU := by unfold var_BU_r; positivity
  unfold var_total_r
  linarith

/-- The Ross swelling correlation is positive for positive inputs. -/
theorem ross_swelling_pos {T BU TD : ℝ} (hT : 0 < T) (hBU : 0 < BU) (hTD : 0 < TD) :
    0 < ross_swelling T BU TD := by
  unfold ross_swelling
  exact mul_pos (mul_pos (mul_pos (by norm_num) (Real.rpow_pos_of_pos hT _))
    (Real.rpow_pos_of_pos hBU _)) (Real.rpow_pos_of_pos hTD _)

/- ================= Claim theorems ================= -/

/-- C1: at every operating point and for each correlation, either the total
first-order variance is strictly positive and the per-input percentage
contributions `100*v_i/V` sum to exactly 100 (three inputs for Storms, two for
Rogozkin), or the total variance is exactly 0 and every contribution is
reported as 0 via the guarded `else 0` branch instead of dividing by zero. -/
theorem contributions_sum_to_100_or_all_zero (T BU TD : ℝ) :
    ((0 < var_total_s T BU TD ∧
        Storms_var_T_pct T BU TD + Storms_var_BU_pct T BU TD + Storms_var_TD_pct T BU TD
          = 100) ∨
      (var_total_s T BU TD = 0 ∧ Storms_var_T_pct T BU TD = 0 ∧
        Storms_var_BU_pct T BU TD = 0 ∧ Storms_var_TD_pct T BU TD = 0)) ∧
    ((0 < var_total_r T BU ∧
        Rogozkin_var_T_pct T BU + Rogozkin_var_BU_pct T BU = 100) ∨
      (var_total_r T BU = 0 ∧ Rogozkin_var_T_pct T BU = 0 ∧ Rogozkin_var_BU_pct T BU = 0)) := by
  constructor
  · have hnn : 0 ≤ var_total_s T BU TD := by
      unfold var_total_s var_T_s var_BU_s var_TD_s
      positivity
    rcases hnn.lt_or_eq with h | h
    · left
      refine ⟨h, ?_⟩
      have hne : var_total_s T BU TD ≠ 0 := ne_of_gt h
      unfold Storms_var_T_pct Storms_var_BU_pct Storms_var_TD_pct
      rw [if_pos h, if_pos h, if_pos h, div_add_div_same, div_add_div_same, div_eq_iff hne]
      unfold var_total_s
      ring
    · right
      have h0 : var_total_s T BU TD = 0 := h.symm
      have hnot : ¬ var_total_s T BU TD > 0 := by rw [h0]; exact lt_irrefl 0
      unfold Storms_var_T_pct Storms_var_BU_pct Storms_var_TD_pct
      rw [if_neg hnot, if_neg hnot, if_neg hnot]
      exact ⟨h0, rfl, rfl, rfl⟩
  · have hnn : 0 ≤ var_total_r T BU := by
      unfold var_total_r var_T_r var_BU_r
      positivity
    rcases hnn.lt_or_eq with h | h
    · left
      refine ⟨h, ?_⟩
      have hne : var_total_r T BU ≠ 0 := ne_of_gt h
      unfold Rogozkin_var_T_pct Rogozkin_var_BU_pct
      rw [if_pos h, if_pos h, div_add_div_same, div_eq_iff hne]
      unfold var_total_r
      ring
    · right
      have h0 : var_total_r T BU = 0 := h.symm
      have hnot : ¬ var_total_r T BU > 0 := by rw [h0]; exact lt_irrefl 0
      unfold Rogozkin_var_T_pct Rogozkin_var_BU_pct
      rw [if_neg hnot, if_neg hnot]
      exact ⟨h0, rfl, rfl⟩

/-- C2 counterexample: the degenerate input BU = 0 passed to the Rogozkin
correlation (at T = 1190 K) does not produce any domain-error signal: the code
performs no input validation and silently evaluates to the value 0. -/
theorem rogozkin_fgr_at_zero_burnup_returns_value : rogozkin_fgr 1190 0 = 0 := by
  simp only [rogozkin_fgr]
  rw [Real.zero_rpow (by norm_num : (1.92 : ℝ) ≠ 0)]
  ring

/-- C2 amended: the correlations perform no domain validation whatsoever — no
DomainError type or check exists in the code; out-of-domain inputs are evaluated
silently, e.g. BU = 0 passed to the Rogozkin correlation returns the value 0 at
every temperature rather than signalling an error. -/
theorem rogozkin_fgr_no_domain_validation (T : ℝ) : rogozkin_fgr T 0 = 0 := by
  simp only [rogozkin_fgr]
  rw [Real.zero_rpow (by norm_num : (1.92 : ℝ) ≠ 0)]
  ring

/-- C3: for every input triple, the code Storms correlation returns exactly the
spec Form A formula `100 / (exp(k*(c1*rho^a / BU^b - T)) + 1)` with k = 0.0025,
c1 = 90, a = 0.77, b = 0.09; in particular at T = 1190 K, BU = 7.058 %FIMA,
rho = 92.89 %TD the returned value is exact direct substitution (hence agrees
to 2 decimal places). -/
theorem storms_fgr_eq_formA_spec (T BU TD : ℝ) : storms_fgr T BU TD = formA_spec T BU TD := by
  unfold storms_fgr formA_spec formA_k formA_c1 formA_a formA_b
  norm_num

/-- C4: for every input pair, the code Rogozkin correlation returns exactly the
spec Form B formula `3.05 * BU^1.92 * exp(-2086/(T - 273.15))`, converting
Kelvin to Celsius internally; the function takes only T and BU — density is not
an input, so the result cannot depend on it. -/
theorem rogozkin_fgr_eq_formB_spec (T BU : ℝ) : rogozkin_fgr T BU = formB_spec T BU := by
  simp only [rogozkin_fgr, formB_spec, formB_c2, formB_p, formB_E]
  norm_num

/-- C5: every partial-derivative estimate in the code is the centered difference
`(f(x+h) - f(x-h)) / (2h)` with the per-variable steps 1 K, 0.01 %FIMA and
0.1 %TD, perturbing exactly one variable while the others stay unperturbed —
both in `sensitivity_analysis.py` and inside the figure14 propagate functions. -/
theorem partials_are_central_differences (T BU TD : ℝ) :
    dfdT_s T BU TD = centralDiff (fun x => storms_fgr x BU TD) T H_T ∧
    dfdBU_s T BU TD = centralDiff (fun x => storms_fgr T x TD) BU H_BU ∧
    dfdTD_s T BU TD = centralDiff (fun x => storms_fgr T BU x) TD H_TD ∧
    dfdT_r T BU = centralDiff (fun x => rogozkin_fgr x BU) T H_T ∧
    dfdBU_r T BU = centralDiff (fun x => rogozkin_fgr T x) BU H_BU ∧
    H_T = 1 ∧ H_BU = 0.01 ∧ H_TD = 0.1 ∧
    (propagate_storms T BU TD).2 =
      Real.sqrt ((centralDiff (fun x => storms_fgr x BU TD) T h_T * dT) ^ 2 +
        (centralDiff (fun x => storms_fgr T x TD) BU h_BU * dBU) ^ 2 +
        (centralDiff (fun x => storms_fgr T BU x) TD h_TD * dTD) ^ 2) ∧
    (propagate_rogozkin T BU).2 =
      Real.sqrt ((centralDiff (fun x => rogozkin_fgr x BU) T h_T * dT) ^ 2 +
        (centralDiff (fun x => rogozkin_fgr T x) BU h_BU * dBU) ^ 2) ∧
    h_T = 1 ∧ h_BU = 0.01 ∧ h_TD = 0.1 := by
  refine ⟨rfl, rfl, rfl, rfl, rfl, ?_, ?_, ?_, rfl, rfl, ?_, ?_, ?_⟩
  · norm_num [H_T]
  · norm_num [H_BU]
  · norm_num [H_TD]
  · norm_num [h_T]
  · norm_num [h_BU]
  · norm_num [h_TD]

/-- C6: the propagated uncertainty is composed exactly as the spec states: each
per-input variance term is `(df/dx_i * Delta_x_i)^2` with Delta_T = 30 K,
Delta_BU = 0.5 %FIMA, Delta_TD = 2 %TD; the total variance sums exactly the
inputs of each correlation (three for Storms, two for Rogozkin); and the
reported standard deviation is the square root of the total variance. -/
theorem variance_composition (T BU TD : ℝ) :
    var_T_s T BU TD = specVarTerm (dfdT_s T BU TD) DELTA_T ∧
    var_BU_s T BU TD = specVarTerm (dfdBU_s T BU TD) DELTA_BU ∧
    var_TD_s T BU TD = specVarTerm (dfdTD_s T BU TD) DELTA_TD ∧
    var_total_s T BU TD = var_T_s T BU TD + var_BU_s T BU TD + var_TD_s T BU TD ∧
    sigma_s T BU TD = Real.sqrt (var_total_s T BU TD) ∧
    var_T_r T BU = specVarTerm (dfdT_r T BU) DELTA_T ∧
    var_BU_r T BU = specVarTerm (dfdBU_r T BU) DELTA_BU ∧
    var_total_r T BU = var_T_r T BU + var_BU_r T BU ∧
    sigma_r T BU = Real.sqrt (var_total_r T BU) ∧
    DELTA_T = 30 ∧ DELTA_BU = 0.5 ∧ DELTA_TD = 2 := by
  refine ⟨rfl, rfl, rfl, rfl, rfl, rfl, rfl, rfl, rfl, ?_, ?_, ?_⟩
  · norm_num [DELTA_T]
  · norm_num [DELTA_BU]
  · norm_num [DELTA_TD]

/-- C7: for all positive inputs, the Storms Form A output lies strictly inside
the open interval (0, 100). -/
theorem storms_output_in_open_interval (T BU TD : ℝ)
    (hT : 0 < T) (hBU : 0 < BU) (hTD : 0 < TD) :
    0 < storms_fgr T BU TD ∧ storms_fgr T BU TD < 100 :=
  ⟨storms_fgr_pos T BU TD, storms_fgr_lt_100 T BU TD⟩

/-- Witness for C7 at the first specimen operating point. -/
theorem storms_output_in_open_interval_at_specimen :
    0 < storms_fgr 1190 7.058 92.89 ∧ storms_fgr 1190 7.058 92.89 < 100 :=
  storms_output_in_open_interval 1190 7.058 92.89 (by norm_num) (by norm_num) (by norm_num)

/-- C8: all four scripts embed the identical 36-entry specimen dataset
entry-wise (sample identifiers, temperatures, burnups, densities), with the
36 specimens grouped into 6 targets of 6 specimens each. -/
theorem datasets_identical :
    sa_Sample_ID = f14_Sample_ID ∧ sa_Sample_ID = f15_Sample_ID ∧
    sa_Sample_ID = f12_Sample_ID ∧
    sa_T_K = f14_T ∧ sa_T_K = f15_T ∧ sa_T_K = f12_Temperature_K ∧
    sa_BU_FIMA = f14_BU ∧ sa_BU_FIMA = f15_BU ∧ sa_BU_FIMA = f12_Burnup_FIMA ∧
    sa_TD_pct = f14_TD ∧ sa_TD_pct = f15_TD ∧ sa_TD_pct = f12_Density_TD ∧
    sa_Target = f14_Target ∧ sa_Target = f15_Target ∧ sa_Target = f12_Target ∧
    sa_Sample_ID.length = 36 ∧ sa_T_K.length = 36 ∧ sa_BU_FIMA.length = 36 ∧
    sa_TD_pct.length = 36 ∧
    sa_Target = List.replicate 6 1 ++ List.replicate 6 2 ++ List.replicate 6 3 ++
      List.replicate 6 4 ++ List.replicate 6 5 ++ List.replicate 6 6 ∧
    sa_Target.length = 36 :=
  ⟨rfl, rfl, rfl, rfl, rfl, rfl, rfl, rfl, rfl, rfl, rfl, rfl, rfl, rfl, rfl,
   rfl, rfl, rfl, rfl, rfl, rfl⟩

/-- C9: every one of the 36 hardcoded specimen records has T at least 875 K
(hence above 273.15 K), positive burnup and positive density; consequently, on
the embedded dataset the Celsius denominator is positive, the Storms, Rogozkin
and Ross correlations all evaluate to well-defined positive values, and both
total variances are strictly positive — the degenerate `else 0` branch of the
contribution computation is never taken. -/
theorem dataset_in_domain :
    ∀ s ∈ specimensQ,
      875 ≤ s.1 ∧ 273.15 < s.1 ∧ 0 < s.2.1 ∧ 0 < s.2.2 ∧
      0 < (s.1 : ℝ) - 273.15 ∧
      0 < storms_fgr (s.1 : ℝ) (s.2.1 : ℝ) (s.2.2 : ℝ) ∧
      storms_fgr (s.1 : ℝ) (s.2.1 : ℝ) (s.2.2 : ℝ) < 100 ∧
      0 < rogozkin_fgr (s.1 : ℝ) (s.2.1 : ℝ) ∧
      0 < ross_swelling (s.1 : ℝ) (s.2.1 : ℝ) (s.2.2 : ℝ) ∧
      0 < var_total_s (s.1 : ℝ) (s.2.1 : ℝ) (s.2.2 : ℝ) ∧
      0 < var_total_r (s.1 : ℝ) (s.2.1 : ℝ) := by
  have key : ∀ s ∈ specimensQ, 875 ≤ s.1 ∧ 0 < s.2.1 ∧ 0 < s.2.2 := by
    simp only [specimensQ, sa_T_K, sa_BU_FIMA, sa_TD_pct, List.zip_cons_cons,
      List.zip_nil_right, List.forall_mem_cons, List.not_mem_nil, false_implies,
      implies_true, and_true]
    norm_num
  intro s hs
  obtain ⟨h875, hBU, hTD⟩ := key s hs
  have h875r : (875 : ℝ) ≤ (s.1 : ℝ) := by exact_mod_cast h875
  have hBUr : (0 : ℝ) < (s.2.1 : ℝ) := by exact_mod_cast hBU
  have hTDr : (0 : ℝ) < (s.2.2 : ℝ) := by exact_mod_cast hTD
  have hq : (273.15 : ℚ) < s.1 := by
    have : (273.15 : ℚ) < 875 := by norm_num
    linarith
  exact ⟨h875, hq, hBU, hTD, by linarith, storms_fgr_pos _ _ _, storms_fgr_lt_100 _ _ _,
    rogozkin_fgr_pos hBUr, ross_swelling_pos (by linarith) hBUr hTDr,
    var_total_s_pos _ _ _, var_total_r_pos hBUr (by linarith)⟩

/-- Witness for C9 at the first specimen record (RRN01-6). -/
theorem dataset_in_domain_first_specimen :
    875 ≤ (1190 : ℚ) ∧ (273.15 : ℚ) < 1190 ∧ (0 : ℚ) < 7.058 ∧ (0 : ℚ) < 92.89 ∧
    0 < ((1190 : ℚ) : ℝ) - 273.15 ∧
    0 < storms_fgr ((1190 : ℚ) : ℝ) ((7.058 : ℚ) : ℝ) ((92.89 : ℚ) : ℝ) ∧
    storms_fgr ((1190 : ℚ) : ℝ) ((7.058 : ℚ) : ℝ) ((92.89 : ℚ) : ℝ) < 100 ∧
    0 < rogozkin_fgr ((1190 : ℚ) : ℝ) ((7.058 : ℚ) : ℝ) ∧
    0 < ross_swelling ((1190 : ℚ) : ℝ) ((7.058 : ℚ) : ℝ) ((92.89 : ℚ) : ℝ) ∧
    0 < var_total_s ((1190 : ℚ) : ℝ) ((7.058 : ℚ) : ℝ) ((92.89 : ℚ) : ℝ) ∧
    0 < var_total_r ((1190 : ℚ) : ℝ) ((7.058 : ℚ) : ℝ) :=
  dataset_in_domain (1190, 7.058, 92.89)
    (by simp [specimensQ, sa_T_K, sa_BU_FIMA, sa_TD_pct, List.zip_cons_cons])

/-- C10: the Ross swelling correlation `4.7e-11 * T^3.12 * BU^0.83 * TD^0.5` is
strictly positive for all positive inputs and strictly increasing in each of
temperature, burnup and density individually, the other two inputs held fixed. -/
theorem ross_pos_and_strict_mono (T BU TD T2 BU2 TD2 : ℝ)
    (hT : 0 < T) (hBU : 0 < BU) (hTD : 0 < TD) :
    0 < ross_swelling T BU TD ∧
    (T < T2 → ross_swelling T BU TD < ross_swelling T2 BU TD) ∧
    (BU < BU2 → ross_swelling T BU TD < ross_swelling T BU2 TD) ∧
    (TD < TD2 → ross_swelling T BU TD < ross_swelling T BU TD2) := by
  have hTp := Real.rpow_pos_of_pos hT (3.12 : ℝ)
  have hBUp := Real.rpow_pos_of_pos hBU (0.83 : ℝ)
  have hTDp := Real.rpow_pos_of_pos hTD (0.5 : ℝ)
  refine ⟨ross_swelling_pos hT hBU hTD, ?_, ?_, ?_⟩
  · intro h
    unfold ross_swelling
    have h1 : T ^ (3.12 : ℝ) < T2 ^ (3.12 : ℝ) := Real.rpow_lt_rpow hT.le h (by norm_num)
    have h2 : 4.7e-11 * T ^ (3.12 : ℝ) < 4.7e-11 * T2 ^ (3.12 : ℝ) :=
      mul_lt_mul_of_pos_left h1 (by norm_num)
    exact mul_lt_mul_of_pos_right (mul_lt_mul_of_pos_right h2 hBUp) hTDp
  · intro h
    unfold ross_swelling
    have h1 : BU ^ (0.83 : ℝ) < BU2 ^ (0.83 : ℝ) := Real.rpow_lt_rpow hBU.le h (by norm_num)
    have h2 : 0 < 4.7e-11 * T ^ (3.12 : ℝ) := mul_pos (by norm_num) hTp
    exact mul_lt_mul_of_pos_right (mul_lt_mul_of_pos_left h1 h2) hTDp
  · intro h
    unfold ross_swelling
    have h1 : TD ^ (0.5 : ℝ) < TD2 ^ (0.5 : ℝ) := Real.rpow_lt_rpow hTD.le h (by norm_num)
    have h2 : 0 < 4.7e-11 * T ^ (3.12 : ℝ) * BU ^ (0.83 : ℝ) :=
      mul_pos (mul_pos (by norm_num) hTp) hBUp
    exact mul_lt_mul_of_pos_left h1 h2

/-- Witness for C10 at concrete dataset extremes. -/
theorem ross_pos_and_strict_mono_at_specimen :
    0 < ross_swelling 875 3.498 86.27 ∧
    ((875 : ℝ) < 1490 → ross_swelling 875 3.498 86.27 < ross_swelling 1490 3.498 86.27) ∧
    ((3.498 : ℝ) < 8.081 → ross_swelling 875 3.498 86.27 < ross_swelling 875 8.081 86.27) ∧
    ((86.27 : ℝ) < 96.32 → ross_swelling 875 3.498 86.27 < ross_swelling 875 3.498 96.32) :=
  ross_pos_and_strict_mono 875 3.498 86.27 1490 8.081 96.32
    (by norm_num) (by norm_num) (by norm_num)
